import Mathlib

/-!
# Verification of the Genie Aladdin Connect core

Shallow embedding of the resilient HTTP request executor
(`src/axioRequests.ts`) and of the `AladdinConnect` device-state service
(`src/aladdinConnect.ts` and its historical variants), together with proofs
of the specified properties.

Conventions: millisecond and second durations are `Nat`/`Int`; the network
is an oracle (a list of per-attempt outcomes); external libraries
(cache-manager, async-lock, pubsub-js) are modelled at the boundary the
spec gives for them.
-/

namespace AxioRequests

/-- HTTP methods accepted by `request` (the `Method` union of axios). -/
inductive HttpMethod
  | get | post | put | delete_ | head | options | patch
  deriving DecidableEq, Repr

/-- `method.toLowerCase() === 'get'`. -/
def HttpMethod.isGet : HttpMethod → Bool
  | .get => true
  | _ => false

/-- The caller-supplied `RetryConfig` (every field optional). -/
structure RetryConfigIn where
  maxTries : Option Int := none
  retryOnStatus : Option (List Nat) := none
  backoffFactorMs : Option Nat := none
  maxBackoffMs : Option Nat := none
  deriving Repr

/-- The resolved retry configuration used by the loop. -/
structure RetryConfig where
  maxTries : Int
  retryOnStatus : List Nat
  backoffFactorMs : Nat
  maxBackoffMs : Nat
  deriving Repr

/-- Embeds the defaulting at the top of `request`: GET defaults to 3 tries,
every other method to 1; `retryOnStatus` defaults to
`[408, 429, 500, 502, 503, 504]`, `backoffFactorMs` to 100 and
`maxBackoffMs` to 10000; a supplied `maxTries` is clamped to at least 1
(`retry.maxTries = Number.isInteger(retry.maxTries) ? Math.max(retry.maxTries, 1) : 1`). -/
def resolveRetry (method : HttpMethod) (cfg : Option RetryConfigIn) : RetryConfig :=
  let dfltMaxTries : Int := if method.isGet then 3 else 1
  let c := cfg.getD {}
  { maxTries := max (c.maxTries.getD dfltMaxTries) 1
    retryOnStatus := c.retryOnStatus.getD [408, 429, 500, 502, 503, 504]
    backoffFactorMs := c.backoffFactorMs.getD 100
    maxBackoffMs := c.maxBackoffMs.getD 10000 }

/-- The `Retry-After` header of an error response, already classified the way
`parseRetryAfter` inspects the raw string: a numeric delay in seconds
(`Number(retryAfter)` succeeded), an HTTP-date (kept as its signed distance in
milliseconds from now, `date.getTime() - new Date().getTime()`), or an
unparseable value. -/
inductive RetryAfterValue
  | seconds (s : Int)
  | httpDate (msFromNow : Int)
  | invalid
  deriving DecidableEq, Repr

/-- Embeds `parseRetryAfter`: `null` for a missing or invalid header,
`Math.max(0, delayS * 1000)` for a delay in seconds, and
`Math.max(0, date.getTime() - now)` for an HTTP-date. -/
def parseRetryAfter (h : Option RetryAfterValue) : Option Nat :=
  match h with
  | none => none
  | some (.seconds s) => some (max 0 (s * 1000)).toNat
  | some (.httpDate d) => some (max 0 d).toNat
  | some .invalid => none

/-- An error response received from the backend. -/
structure HttpResponse where
  status : Nat
  retryAfter : Option RetryAfterValue := none
  deriving DecidableEq, Repr

/-- What one `axios.request` attempt did: returned data, failed with no
response at all (a transport error, `isTimeout` when the axios error code
marks a timeout), or failed with an error response. -/
inductive AttemptOutcome
  | success (v : Nat)
  | netErr (isTimeout : Bool)
  | respErr (r : HttpResponse)
  deriving DecidableEq, Repr

/-- The caller's expected-error handlers: the statuses with an explicit
`onErrorStatus` entry, and whether `onClientError` / `onServerError`
function handlers are supplied. -/
structure HandlerConfig where
  onErrorStatus : List Nat := []
  onClientError : Bool := false
  onServerError : Bool := false
  deriving Repr

/-- Embeds the `expectedErrorStatus` selection inside the catch block:
an explicit `onErrorStatus` entry, else `onClientError` for 4xx, else
`onServerError` for 5xx. -/
def expectedErrorStatus (h : HandlerConfig) (status : Nat) : Bool :=
  decide (status ∈ h.onErrorStatus) ||
    (h.onClientError && decide (400 ≤ status ∧ status < 500)) ||
    (h.onServerError && decide (500 ≤ status))

/-- How `request` ended: returned response data, returned an expected-error
handler's result for a status, or re-threw the axios error of the last
attempt. `exhausted` marks the outcome oracle running dry (the real loop
would issue a further attempt). -/
inductive RequestResult
  | ok (v : Nat)
  | handled (status : Nat)
  | thrown (o : AttemptOutcome)
  | exhausted
  deriving DecidableEq, Repr

/-- The observable behaviour of one `request` call: attempts issued, the
sleeps between them in order, and the final result. -/
structure ExecTrace where
  attempts : Nat
  delays : List Nat
  result : RequestResult
  deriving DecidableEq, Repr

/-- One more attempt after the current trace. -/
def ExecTrace.after (d : Nat) (t : ExecTrace) : ExecTrace :=
  { attempts := t.attempts + 1, delays := d :: t.delays, result := t.result }

/-- Embeds the `while (true)` retry loop of `request`, with `tries` the
current attempt number. Each iteration consumes one oracle outcome.
On success the data is returned. On an error with a response whose status
has an expected-error handler, the handler's result is returned. The error
is re-thrown when it is a transport timeout, when `tries === retry.maxTries`,
or when a response's status is not in `retryOnStatus`; and also when a parsed
`Retry-After` delay is truthy and exceeds `retry.maxBackoffMs`. Otherwise
`tries` is incremented and the loop sleeps the `Retry-After` delay when one
parsed, else `Math.min(maxBackoffMs, backoffFactorMs * 2 ** (tries - 1))`
with the already incremented `tries`. -/
def requestLoop (retry : RetryConfig) (h : HandlerConfig) :
    Nat → List AttemptOutcome → ExecTrace
  | _, [] => ⟨0, [], .exhausted⟩
  | tries, o :: rest =>
    match o with
    | .success v => ⟨1, [], .ok v⟩
    | .netErr isTimeout =>
      if isTimeout ∨ (tries : Int) = retry.maxTries then
        ⟨1, [], .thrown o⟩
      else
        ExecTrace.after (min retry.maxBackoffMs (retry.backoffFactorMs * 2 ^ tries))
          (requestLoop retry h (tries + 1) rest)
    | .respErr r =>
      if expectedErrorStatus h r.status then
        ⟨1, [], .handled r.status⟩
      else if (tries : Int) = retry.maxTries ∨ r.status ∉ retry.retryOnStatus then
        ⟨1, [], .thrown o⟩
      else
        match parseRetryAfter r.retryAfter with
        | some d =>
          if d ≠ 0 ∧ retry.maxBackoffMs < d then ⟨1, [], .thrown o⟩
          else ExecTrace.after d (requestLoop retry h (tries + 1) rest)
        | none =>
          ExecTrace.after (min retry.maxBackoffMs (retry.backoffFactorMs * 2 ^ tries))
            (requestLoop retry h (tries + 1) rest)

/-- Embeds `request`: resolve the retry configuration, start at `tries = 1`. -/
def request (method : HttpMethod) (cfg : Option RetryConfigIn) (h : HandlerConfig)
    (outcomes : List AttemptOutcome) : ExecTrace :=
  requestLoop (resolveRetry method cfg) h 1 outcomes

end AxioRequests

namespace AladdinConnect

/-- The `AladdinDoorStatus` enum (identical across all source variants). -/
inductive AladdinDoorStatus
  | UNKNOWN | OPEN | OPENING | TIMEOUT_OPENING
  | CLOSED | CLOSING | TIMEOUT_CLOSING | NOT_CONFIGURED
  deriving DecidableEq, Repr

/-- The `AladdinDesiredDoorStatus` enum. -/
inductive AladdinDesiredDoorStatus
  | CLOSED | OPEN | NONE
  deriving DecidableEq, Repr

namespace AladdinLink

/-- `AladdinLink.UNKNOWN = 0`. Link statuses arrive from the backend as raw
numbers, so the codes are kept as integers. -/
def UNKNOWN : Int := 0

/-- `AladdinLink.NOT_CONFIGURED = 1`. -/
def NOT_CONFIGURED : Int := 1

/-- `AladdinLink.PAIRED = 2`. -/
def PAIRED : Int := 2

/-- `AladdinLink.CONNECTED = 3`. -/
def CONNECTED : Int := 3

end AladdinLink

/-- The recognized numeric configuration options (`AladdinConnectConfig`).
Credential fields and toggles not consulted by the modelled computations are
omitted. -/
structure AladdinConnectConfig where
  userInfoCacheTtl : Option Int := none
  doorStatusStationaryCacheTtl : Option Int := none
  doorStatusTransitioningCacheTtl : Option Int := none
  doorStatusPollInterval : Option Int := none
  deriving DecidableEq, Repr

def USER_DATA_CACHE_TTL_S_DEFAULT : Int := 60 * 60

def USER_DATA_CACHE_TTL_S_MIN : Int := 5 * 60

def USER_DATA_CACHE_TTL_S_MAX : Int := 24 * 60 * 60

def DOOR_STATUS_STATIONARY_CACHE_TTL_S_DEFAULT : Int := 15

def DOOR_STATUS_STATIONARY_CACHE_TTL_S_MIN : Int := 5

def DOOR_STATUS_STATIONARY_CACHE_TTL_S_MAX : Int := 60

def DOOR_STATUS_TRANSITIONING_CACHE_TTL_S_DEFAULT : Int := 5

def DOOR_STATUS_TRANSITIONING_CACHE_TTL_S_MIN : Int := 1

def DOOR_STATUS_TRANSITIONING_CACHE_TTL_S_MAX : Int := 30

def DOOR_STATUS_POLL_INTERVAL_MS_DEFAULT : Int := 15 * 1000

def DOOR_STATUS_POLL_INTERVAL_MS_MIN : Int := 5 * 1000

def DOOR_STATUS_POLL_INTERVAL_MS_MAX : Int := 60 * 1000

/-- Embeds the `userInfoCacheTtl` getter: the configured value (default 1 h)
clamped to `[USER_DATA_CACHE_TTL_S_MIN, USER_DATA_CACHE_TTL_S_MAX]`. -/
def userInfoCacheTtl (cfg : AladdinConnectConfig) : Int :=
  max USER_DATA_CACHE_TTL_S_MIN
    (min USER_DATA_CACHE_TTL_S_MAX (cfg.userInfoCacheTtl.getD USER_DATA_CACHE_TTL_S_DEFAULT))

/-- Embeds the `doorStatusStationaryCacheTtl` getter. -/
def doorStatusStationaryCacheTtl (cfg : AladdinConnectConfig) : Int :=
  max DOOR_STATUS_STATIONARY_CACHE_TTL_S_MIN
    (min DOOR_STATUS_STATIONARY_CACHE_TTL_S_MAX
      (cfg.doorStatusStationaryCacheTtl.getD DOOR_STATUS_STATIONARY_CACHE_TTL_S_DEFAULT))

/-- Embeds the `doorStatusTransitioningCacheTtl` getter. -/
def doorStatusTransitioningCacheTtl (cfg : AladdinConnectConfig) : Int :=
  max DOOR_STATUS_TRANSITIONING_CACHE_TTL_S_MIN
    (min DOOR_STATUS_TRANSITIONING_CACHE_TTL_S_MAX
      (cfg.doorStatusTransitioningCacheTtl.getD DOOR_STATUS_TRANSITIONING_CACHE_TTL_S_DEFAULT))

/-- Embeds the `pollInterval` getter. -/
def pollInterval (cfg : AladdinConnectConfig) : Int :=
  max DOOR_STATUS_POLL_INTERVAL_MS_MIN
    (min DOOR_STATUS_POLL_INTERVAL_MS_MAX
      (cfg.doorStatusPollInterval.getD DOOR_STATUS_POLL_INTERVAL_MS_DEFAULT))

/-- `AladdinDoor` of the RPC variant (`src/aladdinConnect.ts`, first class). -/
structure AladdinDoor where
  portal : String
  device : String
  id : Int
  name : String
  deriving DecidableEq, Repr

/-- `AladdinDoorStatusInfo` of the RPC variant. A missing battery percentage
is `none` (TS `null`). -/
structure AladdinDoorStatusInfo where
  door : AladdinDoor
  status : AladdinDoorStatus
  desiredStatus : AladdinDesiredDoorStatus
  batteryPercent : Option Int
  fault : Bool
  deriving DecidableEq, Repr

/-- Embeds `doorStatusCacheKey`: the template string `portal:device:id`. -/
def doorStatusCacheKey (door : AladdinDoor) : String :=
  door.portal ++ ":" ++ door.device ++ ":" ++ toString door.id

/-- Embeds the ttl option of `getDoorStatus`'s `cache.wrap` (RPC variant,
lines 324-331): the transitioning TTL when `info?.status ?? UNKNOWN` is
CLOSING or OPENING, else the stationary TTL. -/
def doorStatusTtl (cfg : AladdinConnectConfig) (info : Option AladdinDoorStatusInfo) : Int :=
  if (info.map AladdinDoorStatusInfo.status).getD .UNKNOWN ∈
      [AladdinDoorStatus.CLOSING, AladdinDoorStatus.OPENING] then
    doorStatusTransitioningCacheTtl cfg
  else
    doorStatusStationaryCacheTtl cfg

/-- Modelled from the spec: the `cache-manager` `Cache` held by
`AladdinConnect` is an external dependency whose code is not in the
repository; §4.2 gives its contract (`wrap`/`get`/`set`/`delete`, a failed
compute caches nothing, `delete` removes an entry immediately). The theorems
only look at the cache within a window shorter than any positive TTL, so an
entry is modelled as a live key/value pair. -/
structure SimCache (α : Type) where
  entries : List (String × α)
  deriving DecidableEq, Repr

/-- Modelled from the spec: §4.2 `get(key) -> value | absent`. -/
def SimCache.get {α : Type} (c : SimCache α) (k : String) : Option α :=
  (c.entries.find? (fun e => e.1 == k)).map (fun e => e.2)

/-- Modelled from the spec: §4.2 `set(key, value, ttl)` (the TTL is dropped,
see `SimCache`). -/
def SimCache.set {α : Type} (c : SimCache α) (k : String) (v : α) : SimCache α :=
  ⟨(k, v) :: c.entries⟩

/-- Modelled from the spec: §4.2 `delete(key)` removes an entry immediately
regardless of remaining TTL. -/
def SimCache.del {α : Type} (c : SimCache α) (k : String) : SimCache α :=
  ⟨c.entries.filter (fun e => e.1 != k)⟩

/-- Modelled from the spec: §4.2 `wrap(key, compute, ttlPolicy)` — a live
entry's value is returned without invoking `compute`; otherwise `compute`
runs, its result is stored under the key and returned. Yields the new cache,
the value handed to the caller, and whether `compute` ran (an underlying
fetch happened). -/
def SimCache.wrap {α : Type} (c : SimCache α) (k : String) (compute : α) :
    SimCache α × α × Bool :=
  match c.get k with
  | some v => (c, v, false)
  | none => (c.set k compute, compute, true)

/-- Modelled from the spec: the `async-lock` `AsyncLock` is an external
dependency; §4.3 specifies that `withLock` runs the computations queued on
one key strictly one after another. `getDoorStatus` (RPC variant, lines
236-334) runs `cache.wrap` for the door's key entirely inside
`lock.acquire('DOOR_STATUS', ...)`, so a burst of `n` concurrent
`getDoorStatus(door)` calls arriving before the first fetch completes
executes as `n` sequential wraps of the same key against the shared cache,
all within the TTL of the entry the first wrap stores. Returns the final
cache, each caller's result in completion order, and the number of
underlying backend fetches. -/
def getDoorStatusBurst (c : SimCache (Option AladdinDoorStatusInfo)) (door : AladdinDoor)
    (fetched : Option AladdinDoorStatusInfo) :
    Nat → SimCache (Option AladdinDoorStatusInfo) × List (Option AladdinDoorStatusInfo) × Nat
  | 0 => (c, [], 0)
  | n + 1 =>
    let r1 := c.wrap (doorStatusCacheKey door) fetched
    let r2 := getDoorStatusBurst r1.1 door fetched n
    (r2.1, r1.2.1 :: r2.2.1, (if r1.2.2 then 1 else 0) + r2.2.2)

/-- One entry of `response.data` in `setDoorStatus` (RPC variant): the
per-call `status` field inspected by `every(({ status }) => status === 'ok')`. -/
structure SetDoorCall where
  status : String
  deriving DecidableEq, Repr

/-- Embeds `setDoorStatus` (RPC variant, lines 336-377) from the point where
the command POST has returned without throwing: the cached state entry for
the door's key is deleted, then the call reports whether every constituent
call returned `status === 'ok'`. `responseData` is the POST's `response.data`. -/
def setDoorStatus (c : SimCache (Option AladdinDoorStatusInfo)) (door : AladdinDoor)
    (responseData : List SetDoorCall) : SimCache (Option AladdinDoorStatusInfo) × Bool :=
  (c.del (doorStatusCacheKey door), responseData.all (fun r => r.status == "ok"))

/-- State of the per-door polling machinery started by `subscribe` (RPC
variant, lines 169-204). `subCount` models
`PubSub.countSubscriptions(doorStatusTopic(door))` (pubsub-js is an external
dependency; spec §3/§4.6: a count of live subscriptions per device key gates
the polling loop); `timerScheduled` records whether a `setTimeout(poll, _)`
for this door is pending; `fetches` counts completed backend polls. -/
structure PollerState where
  subCount : Nat
  timerScheduled : Bool
  fetches : Nat
  deriving DecidableEq, Repr

/-- Embeds the firing of the `poll` closure registered by `subscribe` (lines
181-201): when a pending timer fires with `countSubscriptions(topic) === 0`
the closure returns before fetching and schedules nothing; otherwise it
fetches the door status, publishes it, and re-schedules itself with
`setTimeout(poll, this.pollInterval)`. Without a pending timer nothing runs. -/
def pollTick (s : PollerState) : PollerState :=
  if s.timerScheduled then
    if s.subCount = 0 then { s with timerScheduled := false }
    else { s with fetches := s.fetches + 1 }
  else s

/-- The Cognito `AuthenticationResult` stored by the access-token cache
(`src/aladdinConnect.ts`, second class): the declared lifetime in seconds and
the bearer token. -/
structure AwsCognitoAuthenticationResult where
  ExpiresIn : Int
  AccessToken : String
  deriving DecidableEq, Repr

/-- The fixed cache key of `getAccessToken` (second class). -/
def getAccessTokenCacheKey : String := "getAccessToken"

/-- Embeds the ttl option of `getAccessToken`'s `cache.wrap` (second class,
lines 831-873): `({ ExpiresIn: expiresIn }) => expiresIn - 30`. -/
def getAccessTokenTtl (r : AwsCognitoAuthenticationResult) : Int :=
  r.ExpiresIn - 30

/-- The fixed cache key of `getLoginToken` (RPC variant, first class). -/
def getLoginTokenCacheKey : String := "getLoginToken"

/-- Embeds the ttl option of `getLoginToken`'s `cache.wrap` (RPC variant,
lines 379-397): `{ ttl: this.userInfoCacheTtl }`, the clamped user-data
configuration TTL. The acquired credential is not an input. -/
def getLoginTokenTtl (cfg : AladdinConnectConfig) : Int :=
  userInfoCacheTtl cfg

/-- One RPC call response as `getCallResult(callResponse, defaultValue)`
consults it: `ok` is `callResponse?.status === 'ok'` and `result` is the
nested `callResponse?.result?.[0]?.[1]` value when present. -/
structure CallResponse (α : Type) where
  ok : Bool
  result : Option α
  deriving DecidableEq, Repr

/-- Embeds `getCallResult(callResponse, defaultValue)`: the default unless
the call succeeded and carried a value. -/
def getCallResult {α : Type} (c : CallResponse α) (dflt : α) : α :=
  if c.ok then c.result.getD dflt else dflt

/-- `getCallResult` with an absent default (`undefined` for the name call,
`null` for the battery call). -/
def getCallResultOpt {α : Type} (c : CallResponse α) : Option α :=
  if c.ok then c.result else none

/-- The six RPC read results `getDoorStatus` (RPC variant) destructures from
`response.data`, in call order. -/
structure DoorRpcResponses where
  name : CallResponse String
  status : CallResponse AladdinDoorStatus
  desiredStatus : CallResponse AladdinDesiredDoorStatus
  linkStatus : CallResponse Int
  batteryLevel : CallResponse Int
  fault : CallResponse Int
  deriving DecidableEq, Repr

/-- Embeds the result assembly of `getDoorStatus` (RPC variant, lines
287-322), after the RPC batch returned: each call's result is extracted with
its default (`UNKNOWN` status, `NONE` desired status, `UNKNOWN` link, `null`
battery, `0` fault), `null` is returned when no name resolved (`if (!name)`,
which also fires on an empty string), else the `AladdinDoorStatusInfo` whose
`batteryPercent` is the battery level only for a CONNECTED link and `null`
otherwise. -/
def mkDoorStatusInfoRpc (door : AladdinDoor) (rs : DoorRpcResponses) :
    Option AladdinDoorStatusInfo :=
  let status := getCallResult rs.status .UNKNOWN
  let desiredStatus := getCallResult rs.desiredStatus .NONE
  let linkStatus := getCallResult rs.linkStatus AladdinLink.UNKNOWN
  let batteryLevel := getCallResultOpt rs.batteryLevel
  let fault := getCallResult rs.fault 0 != 0
  match getCallResultOpt rs.name with
  | none => none
  | some n =>
    if n = "" then none
    else
      some
        { door := { door with name := n }
          status := status
          desiredStatus := desiredStatus
          batteryPercent := if linkStatus = AladdinLink.CONNECTED then batteryLevel else none
          fault := fault }

/-- A door entity of the `deep-refresh` response (`src/aladdinConnect.ts`,
second class), restricted to the fields the `getAllDoors` mapping reads;
optional where the code defends with `?.`/`??`. -/
structure DoorEntityV2 where
  id : String
  door_index : Int
  name : Option String
  status : Option AladdinDoorStatus
  link_status : Option Int
  battery_level : Option Int
  fault : Option Int
  deriving DecidableEq, Repr

/-- A device entity of the `deep-refresh` response (second class), restricted
to the fields read by the mapping. -/
structure DeviceEntityV2 where
  id : Int
  serial_number : String
  ownership : String
  deriving DecidableEq, Repr

/-- `AladdinDoor` of the second class (door and its last fetched status in
one record). -/
structure AladdinDoorV2 where
  deviceId : Int
  id : String
  index : Int
  serialNumber : String
  name : String
  hasBatteryLevel : Bool
  ownership : String
  status : AladdinDoorStatus
  batteryPercent : Option Int
  fault : Bool
  deriving DecidableEq, Repr

/-- Embeds the per-door mapping inside `getAllDoors` (second class, lines
755-778): name falls back to `'Garage Door'` on a falsy value, statuses and
levels default with `??`, `hasBatteryLevel` is a positive reported level, and
`batteryPercent` is the level only for a CONNECTED link with a positive
level, else `null`. -/
def mkDoorV2 (device : DeviceEntityV2) (door : DoorEntityV2) : AladdinDoorV2 :=
  let name := match door.name with
    | some n => if n = "" then "Garage Door" else n
    | none => "Garage Door"
  let status := door.status.getD .UNKNOWN
  let linkStatus := door.link_status.getD AladdinLink.UNKNOWN
  let batteryLevel := door.battery_level.getD 0
  let fault := door.fault.getD 0 != 0
  { deviceId := device.id
    id := door.id
    index := door.door_index
    serialNumber := device.serial_number
    name := name
    hasBatteryLevel := decide (0 < door.battery_level.getD 0)
    ownership := device.ownership
    status := status
    batteryPercent :=
      if linkStatus = AladdinLink.CONNECTED ∧ 0 < batteryLevel then some batteryLevel else none
    fault := fault }

/-- A door entity of the legacy configuration response
(`src/unnamed/part_001`), restricted to the fields the status assembly reads. -/
structure DoorEntityV0 where
  door_index : Int
  name : Option String
  status : Option AladdinDoorStatus
  desired_status : Option AladdinDesiredDoorStatus
  link_status : Option Int
  battery_level : Option Int
  fault : Option Int
  deriving DecidableEq, Repr

/-- `AladdinDoor` of the legacy variant (`src/unnamed/part_001`). -/
structure AladdinDoorV0 where
  deviceId : Int
  id : Int
  index : Int
  serialNumber : String
  name : String
  hasBatteryLevel : Bool
  ownership : String
  deriving DecidableEq, Repr

/-- `AladdinDoorStatusInfo` of the legacy variant. -/
structure AladdinDoorStatusInfoV0 where
  door : AladdinDoorV0
  status : AladdinDoorStatus
  desiredStatus : AladdinDesiredDoorStatus
  batteryPercent : Option Int
  fault : Bool
  deriving DecidableEq, Repr

/-- Embeds the result assembly of `getDoorStatus` in the legacy variant
(`src/unnamed/part_001` lines 311-330): `doorEntity` is the entity found by
door index (or none), every field defaults through `?.`/`??`/`||`, and
`batteryPercent` is the level only for a CONNECTED link with a positive
level, else `null`. -/
def mkDoorStatusInfoV0 (door : AladdinDoorV0) (doorEntity : Option DoorEntityV0) :
    AladdinDoorStatusInfoV0 :=
  let name := match doorEntity.bind DoorEntityV0.name with
    | some n => if n = "" then "Garage Door" else n
    | none => "Garage Door"
  let status := (doorEntity.bind DoorEntityV0.status).getD .UNKNOWN
  let desiredStatus := (doorEntity.bind DoorEntityV0.desired_status).getD .NONE
  let linkStatus := (doorEntity.bind DoorEntityV0.link_status).getD AladdinLink.UNKNOWN
  let batteryLevel := (doorEntity.bind DoorEntityV0.battery_level).getD 0
  let fault := (doorEntity.bind DoorEntityV0.fault).getD 0 != 0
  { door := { door with name := name }
    status := status
    desiredStatus := desiredStatus
    batteryPercent :=
      if linkStatus = AladdinLink.CONNECTED ∧ 0 < batteryLevel then some batteryLevel else none
    fault := fault }

/-- A concrete RPC response list for witnesses: three call results with a
connected link and a battery level. -/
def doorEntityPaired : DoorEntityV2 :=
  { id := "door-1", door_index := 1, name := some "Door", status := some .CLOSED,
    link_status := some AladdinLink.PAIRED, battery_level := some 50, fault := some 0 }

/-- A concrete device entity for witnesses. -/
def deviceEntityW : DeviceEntityV2 :=
  { id := 11, serial_number := "SN", ownership := "owned" }

/-- A concrete door used by witnesses and counterexamples. -/
def testDoor : AladdinDoor :=
  { portal := "portal", device := "device", id := 1, name := "Door" }

/-- A concrete status info with a transitioning status. -/
def infoOpening : AladdinDoorStatusInfo :=
  { door := testDoor, status := .OPENING, desiredStatus := .NONE,
    batteryPercent := none, fault := false }

/-- A concrete status info with a stationary status. -/
def infoClosed : AladdinDoorStatusInfo :=
  { door := testDoor, status := .CLOSED, desiredStatus := .NONE,
    batteryPercent := none, fault := false }

end AladdinConnect

namespace AxioRequests

/-- Projection of an explicit trace. -/
theorem ExecTrace.attempts_mk (a : Nat) (ds : List Nat) (r : RequestResult) :
    (ExecTrace.mk a ds r).attempts = a := rfl

/-- One more attempt adds one to the attempt count. -/
theorem ExecTrace.attempts_after (d : Nat) (t : ExecTrace) :
    (ExecTrace.after d t).attempts = t.attempts + 1 := rfl

/-- Each loop iteration consumes one attempt, and the re-throw when
`tries === retry.maxTries` bounds how many iterations can run: starting from
attempt number `tries ≤ maxTries`, at most `maxTries - tries + 1` further
attempts are issued. -/
theorem requestLoop_attempts_le (retry : RetryConfig) (h : HandlerConfig) :
    ∀ (outs : List AttemptOutcome) (tries : Nat), (tries : Int) ≤ retry.maxTries →
      (requestLoop retry h tries outs).attempts ≤ (retry.maxTries - tries + 1).toNat := by
  intro outs
  induction outs with
  | nil =>
    intro tries ht
    simp [requestLoop]
  | cons o rest ih =>
    intro tries ht
    cases o with
    | success v =>
      simp only [requestLoop, ExecTrace.attempts_mk]
      omega
    | netErr isTimeout =>
      simp only [requestLoop]
      split
      · simp only [ExecTrace.attempts_mk]
        omega
      · rename_i hcond
        push_neg at hcond
        have h2 : ((tries + 1 : Nat) : Int) ≤ retry.maxTries := by
          have hne := hcond.2
          push_cast
          omega
        have h3 := ih (tries + 1) h2
        simp only [ExecTrace.attempts_after]
        push_cast at h2
        omega
    | respErr r =>
      simp only [requestLoop]
      split
      · simp only [ExecTrace.attempts_mk]
        omega
      · split
        · simp only [ExecTrace.attempts_mk]
          omega
        · rename_i hcond
          push_neg at hcond
          have h2 : ((tries + 1 : Nat) : Int) ≤ retry.maxTries := by
            have hne := hcond.1
            push_cast
            omega
          have h3 := ih (tries + 1) h2
          push_cast at h2
          split
          · split
            · simp only [ExecTrace.attempts_mk]
              omega
            · simp only [ExecTrace.attempts_after]
              omega
          · simp only [ExecTrace.attempts_after]
            omega

/-- C7: for every call to `request` the number of HTTP attempts issued is at
most the effective `maxTries` budget, so the retry loop terminates; with no
caller retry configuration the budget is 3 for GET and 1 for every other
method, and the retryable status set is `{408, 429, 500, 502, 503, 504}`. -/
theorem request_attempt_budget :
    (∀ (method : HttpMethod) (cfg : Option RetryConfigIn) (h : HandlerConfig)
        (outs : List AttemptOutcome),
      (request method cfg h outs).attempts ≤ (resolveRetry method cfg).maxTries.toNat)
    ∧ (resolveRetry .get none).maxTries = 3
    ∧ (∀ m : HttpMethod, m.isGet = false → (resolveRetry m none).maxTries = 1)
    ∧ (∀ m : HttpMethod, (resolveRetry m none).retryOnStatus = [408, 429, 500, 502, 503, 504]) := by
  refine ⟨?_, by decide, ?_, ?_⟩
  · intro method cfg h outs
    have h1 : (1 : Int) ≤ (resolveRetry method cfg).maxTries := le_max_right _ _
    have h2 := requestLoop_attempts_le (resolveRetry method cfg) h outs 1 (by exact_mod_cast h1)
    simpa using h2
  · intro m hm
    cases m <;> revert hm <;> decide
  · intro m
    cases m <;> decide

/-- Witness for C7: a non-GET method defaults to one attempt, and a GET call
facing four consecutive 503 responses stays within its budget of 3. -/
theorem request_attempt_budget_witness :
    HttpMethod.isGet .post = false ∧ (resolveRetry .post none).maxTries = 1 ∧
      (request .get none {}
          [.respErr { status := 503 }, .respErr { status := 503 },
            .respErr { status := 503 }, .respErr { status := 503 }]).attempts ≤
        (resolveRetry .get none).maxTries.toNat :=
  ⟨rfl, request_attempt_budget.2.2.1 .post rfl,
    request_attempt_budget.1 .get none {} _⟩

/-- C4: an attempt that fails with a transport-level timeout (no response
received) makes the executor throw immediately — one attempt consumed, no
sleep, no further attempt — whatever the retry configuration, the handler
configuration, the current attempt number or the remaining oracle. -/
theorem timeout_never_retried (retry : RetryConfig) (h : HandlerConfig) (tries : Nat)
    (rest : List AttemptOutcome) :
    requestLoop retry h tries (.netErr true :: rest) =
      ⟨1, [], .thrown (.netErr true)⟩ := by
  simp [requestLoop]

/-- C6: on a retryable failed response carrying a valid Retry-After header
parsing to `d` milliseconds, the executor throws immediately without sleeping
when `d` exceeds `maxBackoffMs`, and otherwise sleeps exactly `d` (in place
of the exponential backoff) before the next attempt. -/
theorem retry_after_honored_or_abort (retry : RetryConfig) (h : HandlerConfig) (k : Nat)
    (r : HttpResponse) (rest : List AttemptOutcome) (d : Nat)
    (hbudget : (k : Int) ≠ retry.maxTries)
    (hretry : r.status ∈ retry.retryOnStatus)
    (hexp : expectedErrorStatus h r.status = false)
    (hd : parseRetryAfter r.retryAfter = some d) :
    (retry.maxBackoffMs < d →
      requestLoop retry h k (.respErr r :: rest) = ⟨1, [], .thrown (.respErr r)⟩)
    ∧ (d ≤ retry.maxBackoffMs →
      requestLoop retry h k (.respErr r :: rest) =
        ExecTrace.after d (requestLoop retry h (k + 1) rest)) := by
  constructor
  · intro hgt
    have hne : d ≠ 0 := by omega
    simp [requestLoop, hexp, hbudget, hretry, hd, hne, hgt]
  · intro hle
    have hno : ¬ (d ≠ 0 ∧ retry.maxBackoffMs < d) := by omega
    simp [requestLoop, hexp, hbudget, hretry, hd, hno]

/-- Witness for C6: a 429 with `Retry-After: 2` on the first GET attempt
sleeps exactly 2000 ms. -/
theorem retry_after_honored_or_abort_witness :
    ((1 : Int) ≠ (resolveRetry .get none).maxTries)
    ∧ (429 ∈ (resolveRetry .get none).retryOnStatus)
    ∧ (expectedErrorStatus {} 429 = false)
    ∧ (parseRetryAfter (some (.seconds 2)) = some 2000)
    ∧ ((2000 : Nat) ≤ (resolveRetry .get none).maxBackoffMs)
    ∧ (requestLoop (resolveRetry .get none) {} 1
          [.respErr { status := 429, retryAfter := some (.seconds 2) }, .success 7] =
        ExecTrace.after 2000 (requestLoop (resolveRetry .get none) {} 2 [.success 7])) :=
  ⟨by decide, by decide, by decide, by decide, by decide,
    (retry_after_honored_or_abort (resolveRetry .get none) {} 1
        { status := 429, retryAfter := some (.seconds 2) } [.success 7] 2000
        (by decide) (by decide) (by decide) (by decide)).2 (by decide)⟩

/-- C2 is false as stated: with the default GET configuration
(`backoffFactorMs = 100`, `maxBackoffMs = 10000`), a first attempt failing
retryably with no Retry-After sleeps 200 ms, not
`min(maxBackoffMs, backoffFactorMs * 2^(k-1)) = 100` for `k = 1`: the code
increments `tries` before computing the backoff. -/
theorem backoff_first_delay_not_base :
    (request .get none {} [.respErr { status := 503 }, .success 0]).delays = [200]
    ∧ (200 : Nat) ≠ min 10000 (100 * 2 ^ (1 - 1)) := by
  decide

/-- C2 (amended): for every request that fails retryably on attempt `k` with
no valid Retry-After header — an error response with a retryable status, or
a non-timeout transport error — the delay slept before attempt `k + 1`
equals `min(maxBackoffMs, backoffFactorMs * 2^k)` (one doubling further than
the spec's `2^(k-1)`). -/
theorem backoff_delay_formula (retry : RetryConfig) (h : HandlerConfig) (k : Nat)
    (r : HttpResponse) (rest : List AttemptOutcome)
    (hbudget : (k : Int) ≠ retry.maxTries)
    (hretry : r.status ∈ retry.retryOnStatus)
    (hexp : expectedErrorStatus h r.status = false)
    (hra : parseRetryAfter r.retryAfter = none) :
    requestLoop retry h k (.respErr r :: rest) =
      ExecTrace.after (min retry.maxBackoffMs (retry.backoffFactorMs * 2 ^ k))
        (requestLoop retry h (k + 1) rest)
    ∧ requestLoop retry h k (.netErr false :: rest) =
      ExecTrace.after (min retry.maxBackoffMs (retry.backoffFactorMs * 2 ^ k))
        (requestLoop retry h (k + 1) rest) := by
  constructor
  · simp [requestLoop, hexp, hbudget, hretry, hra]
  · simp [requestLoop, hbudget]

/-- Witness for C2 (amended): the first default-GET retry after a 503 sleeps
`min(10000, 100 * 2^1) = 200` ms. -/
theorem backoff_delay_formula_witness :
    ((1 : Int) ≠ (resolveRetry .get none).maxTries)
    ∧ (503 ∈ (resolveRetry .get none).retryOnStatus)
    ∧ (expectedErrorStatus {} 503 = false)
    ∧ (parseRetryAfter none = none)
    ∧ ((requestLoop (resolveRetry .get none) {} 1
          [.respErr { status := 503 }, .success 0]).delays = [200]) :=
  ⟨by decide, by decide, by decide, rfl, by
    have h := (backoff_delay_formula (resolveRetry .get none) {} 1
      { status := 503 } [.success 0] (by decide) (by decide) (by decide) rfl).1
    rw [h]
    decide⟩

end AxioRequests

namespace AladdinConnect

/-- Reading a key just deleted misses. -/
theorem SimCache.get_del {α : Type} (c : SimCache α) (k : String) :
    (c.del k).get k = none := by
  unfold SimCache.del SimCache.get
  have h : List.find? (fun e => e.1 == k) (List.filter (fun e => e.1 != k) c.entries)
      = none := by
    rw [List.find?_eq_none]
    intro e he
    rw [List.mem_filter] at he
    have h2 := he.2
    simp only [bne_iff_ne, ne_eq] at h2
    simp [h2]
  rw [h]
  rfl

/-- Reading a key just stored hits the stored value. -/
theorem SimCache.get_set {α : Type} (c : SimCache α) (k : String) (v : α) :
    (c.set k v).get k = some v := by
  unfold SimCache.set SimCache.get
  rw [List.find?_cons_of_pos _ (by simp)]
  rfl

/-- Once the door's entry is live with the fetched value, every further wrap
of the burst is a cache hit: no fetch, same result, unchanged cache. -/
theorem getDoorStatusBurst_hit (door : AladdinDoor) (fetched : Option AladdinDoorStatusInfo) :
    ∀ (n : Nat) (c : SimCache (Option AladdinDoorStatusInfo)),
      c.get (doorStatusCacheKey door) = some fetched →
      getDoorStatusBurst c door fetched n = (c, List.replicate n fetched, 0) := by
  intro n
  induction n with
  | zero =>
    intro c hhit
    rfl
  | succ m ih =>
    intro c hhit
    simp [getDoorStatusBurst, SimCache.wrap, hhit, ih c hhit, List.replicate]

/-- C1: single flight per device key — when `n ≥ 1` concurrent
`getDoorStatus(door)` callers arrive before the first fetch completes and the
door's key is not cached, the serialized burst performs exactly one backend
fetch and every caller receives that fetch's result. -/
theorem getDoorStatus_burst_single_flight (c : SimCache (Option AladdinDoorStatusInfo))
    (door : AladdinDoor) (fetched : Option AladdinDoorStatusInfo) (n : Nat)
    (hmiss : c.get (doorStatusCacheKey door) = none) (hn : 1 ≤ n) :
    (getDoorStatusBurst c door fetched n).2.2 = 1 ∧
      (getDoorStatusBurst c door fetched n).2.1 = List.replicate n fetched := by
  obtain ⟨m, rfl⟩ : ∃ m, n = m + 1 := ⟨n - 1, by omega⟩
  have hset : (c.set (doorStatusCacheKey door) fetched).get (doorStatusCacheKey door)
      = some fetched := SimCache.get_set c _ fetched
  have hrest := getDoorStatusBurst_hit door fetched m
    (c.set (doorStatusCacheKey door) fetched) hset
  simp [getDoorStatusBurst, SimCache.wrap, hmiss, hrest, List.replicate]

/-- Witness for C1: three concurrent callers against an empty cache fetch
once and all see the fetched status. -/
theorem getDoorStatus_burst_single_flight_witness :
    (getDoorStatusBurst ⟨[]⟩ testDoor (some infoClosed) 3).2.2 = 1 ∧
      (getDoorStatusBurst ⟨[]⟩ testDoor (some infoClosed) 3).2.1 =
        List.replicate 3 (some infoClosed) :=
  getDoorStatus_burst_single_flight ⟨[]⟩ testDoor (some infoClosed) 3 rfl (by decide)

/-- C3: every `setDoorStatus` call whose backend command POST does not throw
deletes the cached state entry for the door's key before returning — the next
read for that key misses — and the deletion does not depend on how many of
the constituent calls reported success. -/
theorem setDoorStatus_invalidates_cache (c : SimCache (Option AladdinDoorStatusInfo))
    (door : AladdinDoor) (responseData : List SetDoorCall) :
    ((setDoorStatus c door responseData).1).get (doorStatusCacheKey door) = none ∧
      ∀ responseData2 : List SetDoorCall,
        (setDoorStatus c door responseData).1 = (setDoorStatus c door responseData2).1 :=
  ⟨SimCache.get_del c (doorStatusCacheKey door), fun _ => rfl⟩

/-- C5 is false as stated: the login-token credential of the RPC variant is
cached with a TTL taken from the (clamped) `userInfoCacheTtl` configuration
value — 3600 s by default, 300 s for a configured 60 s — not from any
declared credential lifetime minus a safety margin; no credential is even an
input to that TTL. -/
theorem loginToken_ttl_from_config :
    getLoginTokenTtl {} = 3600
    ∧ getLoginTokenTtl { userInfoCacheTtl := some 60 } = 300
    ∧ (3600 : Int) ≠ 3600 - 30
    ∧ (3600 : Int) ≠ 300 := by
  refine ⟨?_, ?_, by decide, by decide⟩ <;> decide

/-- C5 (amended): the Cognito-variant `getAccessToken` caches under the
single fixed key `'getAccessToken'` with a TTL of the credential's declared
`ExpiresIn` lifetime minus a 30 s margin (hence strictly below the lifetime);
the RPC-variant `getLoginToken` caches under the single fixed key
`'getLoginToken'` but with the clamped `userInfoCacheTtl` configuration value
(within [300 s, 86400 s]), not a value derived from the credential. -/
theorem token_cache_ttl_sources :
    getAccessTokenCacheKey = "getAccessToken"
    ∧ getLoginTokenCacheKey = "getLoginToken"
    ∧ (∀ r : AwsCognitoAuthenticationResult,
        getAccessTokenTtl r = r.ExpiresIn - 30 ∧ getAccessTokenTtl r < r.ExpiresIn)
    ∧ (∀ cfg : AladdinConnectConfig,
        getLoginTokenTtl cfg = userInfoCacheTtl cfg
        ∧ 300 ≤ getLoginTokenTtl cfg ∧ getLoginTokenTtl cfg ≤ 86400) := by
  refine ⟨rfl, rfl, fun r => ⟨rfl, by unfold getAccessTokenTtl; omega⟩, fun cfg => ⟨rfl, ?_, ?_⟩⟩
  · unfold getLoginTokenTtl userInfoCacheTtl USER_DATA_CACHE_TTL_S_MIN
    omega
  · unfold getLoginTokenTtl userInfoCacheTtl USER_DATA_CACHE_TTL_S_MIN USER_DATA_CACHE_TTL_S_MAX
    omega

/-- C8 is false as stated: with a configuration setting the transitioning TTL
to 30 s and the stationary TTL to 5 s (both within their clamp ranges), the
ttl policy gives an OPENING door 30 s and a CLOSED door 5 s, so the
transitioning TTL is not strictly less than the stationary one. -/
theorem ttl_policy_not_always_less :
    ¬ (doorStatusTtl
        { doorStatusTransitioningCacheTtl := some 30, doorStatusStationaryCacheTtl := some 5 }
        (some infoOpening)
      < doorStatusTtl
        { doorStatusTransitioningCacheTtl := some 30, doorStatusStationaryCacheTtl := some 5 }
        (some infoClosed)) := by
  decide

/-- C8 (amended): when the configuration leaves both door-status TTLs unset
(their defaults, 5 s transitioning and 15 s stationary), the ttl policy gives
every OPENING/CLOSING state a TTL strictly less than that of any other state;
configured values are clamped to [1 s, 30 s] and [5 s, 60 s] independently
and need not preserve the inequality. -/
theorem ttl_policy_default_transitioning_lt_stationary (cfg : AladdinConnectConfig)
    (ht : cfg.doorStatusTransitioningCacheTtl = none)
    (hs : cfg.doorStatusStationaryCacheTtl = none)
    (a b : Option AladdinDoorStatusInfo)
    (ha : (a.map AladdinDoorStatusInfo.status).getD .UNKNOWN ∈
      [AladdinDoorStatus.CLOSING, AladdinDoorStatus.OPENING])
    (hb : (b.map AladdinDoorStatusInfo.status).getD .UNKNOWN ∉
      [AladdinDoorStatus.CLOSING, AladdinDoorStatus.OPENING]) :
    doorStatusTtl cfg a < doorStatusTtl cfg b := by
  unfold doorStatusTtl
  rw [if_pos ha, if_neg hb]
  unfold doorStatusTransitioningCacheTtl doorStatusStationaryCacheTtl
  rw [ht, hs]
  decide

/-- Witness for C8 (amended): with the default configuration an OPENING door
gets a strictly shorter TTL than a CLOSED one. -/
theorem ttl_policy_default_transitioning_lt_stationary_witness :
    doorStatusTtl {} (some infoOpening) < doorStatusTtl {} (some infoClosed) :=
  ttl_policy_default_transitioning_lt_stationary {} rfl rfl
    (some infoOpening) (some infoClosed) (by decide) (by decide)

/-- A tick with no pending timer does nothing. -/
theorem pollTick_inactive (s : PollerState) (h : s.timerScheduled = false) :
    pollTick s = s := by
  simp [pollTick, h]

/-- Iterating ticks from a state with no pending timer changes nothing. -/
theorem pollTick_iterate_inactive (m : Nat) (s : PollerState) (h : s.timerScheduled = false) :
    pollTick^[m] s = s := by
  induction m with
  | zero => rfl
  | succ n ih => rw [Function.iterate_succ_apply, pollTick_inactive s h, ih]

/-- C9: once the last subscription for the door's key is gone, the next
scheduled poll tick observes a zero subscriber count, performs no backend
fetch and schedules no further timer; hence no matter how many further ticks
elapse, no fetch ever happens again for that key. -/
theorem poll_stops_after_last_unsubscribe (s : PollerState)
    (hsub : s.subCount = 0) (htimer : s.timerScheduled = true) :
    (pollTick s).fetches = s.fetches ∧ (pollTick s).timerScheduled = false ∧
      ∀ m : Nat, (pollTick^[m] (pollTick s)).fetches = s.fetches := by
  have h1 : pollTick s = { s with timerScheduled := false } := by
    simp [pollTick, hsub, htimer]
  refine ⟨by rw [h1], by rw [h1], fun m => ?_⟩
  rw [h1, pollTick_iterate_inactive m _ rfl]

/-- Witness for C9: a pending timer over zero subscribers with 7 completed
fetches stays at 7 fetches forever. -/
theorem poll_stops_after_last_unsubscribe_witness :
    (pollTick ⟨0, true, 7⟩).fetches = 7 ∧ (pollTick ⟨0, true, 7⟩).timerScheduled = false ∧
      (pollTick^[5] (pollTick ⟨0, true, 7⟩)).fetches = 7 :=
  ⟨(poll_stops_after_last_unsubscribe ⟨0, true, 7⟩ rfl rfl).1,
    (poll_stops_after_last_unsubscribe ⟨0, true, 7⟩ rfl rfl).2.1,
    (poll_stops_after_last_unsubscribe ⟨0, true, 7⟩ rfl rfl).2.2 5⟩

/-- C10: in every produced door status record, `batteryPercent` is non-null
only when the reported link status equals CONNECTED — whenever the link
status is anything else (UNKNOWN, NOT_CONFIGURED, PAIRED, or any other code),
`batteryPercent` is null regardless of the reported battery level — in all
three variants: the RPC `getDoorStatus` assembly, the `deep-refresh`
`getAllDoors` mapping, and the legacy `getDoorStatus` assembly. -/
theorem batteryPercent_requires_connected_link :
    (∀ (door : AladdinDoor) (rs : DoorRpcResponses) (info : AladdinDoorStatusInfo),
      mkDoorStatusInfoRpc door rs = some info →
      getCallResult rs.linkStatus AladdinLink.UNKNOWN ≠ AladdinLink.CONNECTED →
      info.batteryPercent = none)
    ∧ (∀ (device : DeviceEntityV2) (door : DoorEntityV2),
      door.link_status.getD AladdinLink.UNKNOWN ≠ AladdinLink.CONNECTED →
      (mkDoorV2 device door).batteryPercent = none)
    ∧ (∀ (door : AladdinDoorV0) (doorEntity : Option DoorEntityV0),
      (doorEntity.bind DoorEntityV0.link_status).getD AladdinLink.UNKNOWN
        ≠ AladdinLink.CONNECTED →
      (mkDoorStatusInfoV0 door doorEntity).batteryPercent = none) := by
  refine ⟨?_, ?_, ?_⟩
  · intro door rs info hmk hlink
    simp only [mkDoorStatusInfoRpc, if_neg hlink] at hmk
    split at hmk
    · exact absurd hmk (by simp)
    · split at hmk
      · exact absurd hmk (by simp)
      · rw [← Option.some.inj hmk]
  · intro device door hlink
    have hno : ¬ (door.link_status.getD AladdinLink.UNKNOWN = AladdinLink.CONNECTED ∧
        0 < door.battery_level.getD 0) := fun hcon => hlink hcon.1
    simp [mkDoorV2, hno]
  · intro door doorEntity hlink
    have hno : ¬ ((doorEntity.bind DoorEntityV0.link_status).getD AladdinLink.UNKNOWN
          = AladdinLink.CONNECTED ∧
        0 < (doorEntity.bind DoorEntityV0.battery_level).getD 0) := fun hcon => hlink hcon.1
    simp [mkDoorStatusInfoV0, hno]

/-- Witness for C10: a paired-but-not-connected door reporting battery level
50 yields a null battery percentage. -/
theorem batteryPercent_requires_connected_link_witness :
    (mkDoorV2 deviceEntityW doorEntityPaired).batteryPercent = none :=
  batteryPercent_requires_connected_link.2.1 deviceEntityW doorEntityPaired (by decide)

end AladdinConnect
